import Mathlib

/-!
Verification of `src/app/main.py` (a minimal Flask HTTP service with
liveness/readiness probes, a version endpoint, a prime-counting compute
endpoint, and graceful-shutdown signal handling).

The Python code is shallowly embedded: the pure function `count_primes`
becomes a Lean function on `Int`; JSON documents become an inductive
`JsonValue` (JSON numbers with a fractional part are modelled as exact
rationals); each HTTP handler becomes a function from the process state
(the two module-level boolean flags) to a pair of the resulting state and
an HTTP response (status code and JSON body); the signal handler becomes a
state transformer recording the sleep duration and the exit code.
Wall-clock time (the `latency_seconds` response field, the 2-second
startup sleep and the 5-second shutdown sleep as real durations) is
outside the embedding; the sleep duration appears only as the recorded
constant 5.
-/

/-- Model of `int(num ** 0.5)` (src/app/main.py line 33): the floor of the
square root of `num`.  For every `num ≤ 100000` the double-precision value
of `num ** 0.5` truncates to exactly `⌊√num⌋`, so the model is exact on
the whole input range admitted by the service.  Written as structural
recursion so that it evaluates in the kernel; `floorSqrt_eq_sqrt` below
shows it agrees with `Nat.sqrt`. -/
def floorSqrt : Nat → Nat
  | 0 => 0
  | n + 1 =>
    if (floorSqrt n + 1) * (floorSqrt n + 1) ≤ n + 1 then floorSqrt n + 1 else floorSqrt n

theorem floorSqrt_isSqrt (n : Nat) :
    floorSqrt n * floorSqrt n ≤ n ∧ n < (floorSqrt n + 1) * (floorSqrt n + 1) := by
  induction n with
  | zero => exact ⟨by decide, by decide⟩
  | succ n ih =>
    by_cases h : (floorSqrt n + 1) * (floorSqrt n + 1) ≤ n + 1
    · simp only [floorSqrt, if_pos h]
      exact ⟨h, by nlinarith [ih.2]⟩
    · simp only [floorSqrt, if_neg h]
      exact ⟨Nat.le_succ_of_le ih.1, by omega⟩

theorem floorSqrt_eq_sqrt (n : Nat) : floorSqrt n = Nat.sqrt n :=
  Nat.eq_sqrt.mpr (floorSqrt_isSqrt n)

/-- Trial-division primality test used by `count_primes`
(src/app/main.py lines 31-36): the inner loop
`for i in range(2, int(num ** 0.5) + 1)` tests divisibility of `num` by
every `i` with `2 ≤ i ≤ ⌊√num⌋`, and the candidate is prime when no such
`i` divides it. -/
def isPrimeTrial (num : Nat) : Bool :=
  (List.range' 2 (floorSqrt num + 1 - 2)).all (fun i => num % i != 0)

/-- `count_primes` (src/app/main.py lines 25-39): returns 0 when `n < 2`,
otherwise counts the `num` in `range(2, n + 1)` that pass the
trial-division test.  The argument is an `Int` because the handler passes
the converted integer directly. -/
def count_primes (n : Int) : Nat :=
  if n < 2 then 0
  else (List.range' 2 (n.toNat + 1 - 2)).countP (fun num => isPrimeTrial num)

/-- Spec-side definition, following the claim's words: a candidate `num`
in `[2, n]` is prime iff no integer from 2 up to and including the floor
of its square root divides it evenly; the count is the number of such
candidates. -/
def trialDivisionPrimeCount (n : Nat) : Nat :=
  ((Finset.range (n + 1)).filter
    (fun num => 2 ≤ num ∧ ∀ i ∈ Finset.Icc 2 (floorSqrt num), num % i ≠ 0)).card

/-- Spec-side definition: the number of (mathematical) primes `≤ n`. -/
def primePi (n : Nat) : Nat :=
  ((Finset.range (n + 1)).filter Nat.Prime).card

theorem isPrimeTrial_iff (m : Nat) :
    isPrimeTrial m = true ↔ ∀ i, 2 ≤ i → i ≤ Nat.sqrt m → ¬ i ∣ m := by
  unfold isPrimeTrial
  rw [List.all_eq_true, floorSqrt_eq_sqrt]
  constructor
  · intro h i h2 hle hdvd
    have hmem : i ∈ List.range' 2 (Nat.sqrt m + 1 - 2) := by
      rw [List.mem_range'_1]
      refine ⟨h2, ?_⟩
      omega
    have := h i hmem
    simp only [bne_iff_ne, ne_eq] at this
    exact this (Nat.dvd_iff_mod_eq_zero.mp hdvd)
  · intro h i hmem
    rw [List.mem_range'_1] at hmem
    simp only [bne_iff_ne, ne_eq]
    intro hmod
    exact h i hmem.1 (by omega) (Nat.dvd_iff_mod_eq_zero.mpr hmod)

theorem isPrimeTrial_iff_prime (m : Nat) (h2 : 2 ≤ m) :
    isPrimeTrial m = true ↔ Nat.Prime m := by
  rw [isPrimeTrial_iff, Nat.prime_def_le_sqrt]
  constructor
  · intro h
    exact ⟨h2, fun i hi hle => h i hi hle⟩
  · intro h i hi hle
    exact h.2 i hi hle

theorem primePi_succ (m : Nat) :
    primePi (m + 1) = primePi m + (if Nat.Prime (m + 1) then 1 else 0) := by
  unfold primePi
  rw [Finset.range_succ, Finset.filter_insert]
  by_cases hp : Nat.Prime (m + 1)
  · rw [if_pos hp, if_pos hp, Finset.card_insert_of_not_mem]
    simp
  · rw [if_neg hp, if_neg hp]
    rfl

theorem primePi_one : primePi 1 = 0 := by
  unfold primePi
  rw [Finset.card_eq_zero, Finset.filter_eq_empty_iff]
  intro x hx
  rw [Finset.mem_range] at hx
  interval_cases x
  · exact Nat.not_prime_zero
  · exact Nat.not_prime_one

theorem primePi_zero : primePi 0 = 0 := by
  unfold primePi
  rw [Finset.card_eq_zero, Finset.filter_eq_empty_iff]
  intro x hx
  rw [Finset.mem_range] at hx
  interval_cases x
  exact Nat.not_prime_zero

theorem countP_range'_eq_primePi (k : Nat) :
    (List.range' 2 k).countP (fun num => isPrimeTrial num) = primePi (k + 1) := by
  induction k with
  | zero =>
    rw [List.range'_zero, List.countP_nil, primePi_one]
  | succ k ih =>
    rw [List.range'_1_concat, List.countP_append, ih, List.countP_cons, List.countP_nil]
    have h2 : 2 + k = (k + 1) + 1 := by omega
    rw [primePi_succ (k + 1)]
    congr 1
    rw [h2]
    by_cases hp : Nat.Prime (k + 1 + 1)
    · have ht : isPrimeTrial (k + 1 + 1) = true := by
        rw [isPrimeTrial_iff_prime (k + 1 + 1) (by omega)]
        exact hp
      simp [ht, hp]
    · have ht : isPrimeTrial (k + 1 + 1) = false := by
        rw [Bool.eq_false_iff]
        intro hc
        exact hp ((isPrimeTrial_iff_prime (k + 1 + 1) (by omega)).mp hc)
      simp [ht, hp]

theorem count_primes_eq_primePi (n : Nat) : count_primes (n : Int) = primePi n := by
  unfold count_primes
  by_cases h : (n : Int) < 2
  · rw [if_pos h]
    have hn : n = 0 ∨ n = 1 := by omega
    rcases hn with rfl | rfl
    · rw [primePi_zero]
    · rw [primePi_one]
  · rw [if_neg h]
    have hn : 2 ≤ n := by exact_mod_cast not_lt.mp h
    have ht : (n : Int).toNat = n := by omega
    rw [ht]
    have hk : n + 1 - 2 = n - 1 := by omega
    rw [hk, countP_range'_eq_primePi (n - 1)]
    congr 1
    omega

theorem trialDivisionPrimeCount_eq_primePi (n : Nat) :
    trialDivisionPrimeCount n = primePi n := by
  unfold trialDivisionPrimeCount primePi
  congr 1
  apply Finset.filter_congr
  intro num _
  rw [Nat.prime_def_le_sqrt]
  constructor
  · intro ⟨h2, h⟩
    refine ⟨h2, fun m hm hle => ?_⟩
    intro hdvd
    have hmem : m ∈ Finset.Icc 2 (floorSqrt num) := by
      rw [Finset.mem_Icc, floorSqrt_eq_sqrt]
      exact ⟨hm, hle⟩
    exact h m hmem (Nat.dvd_iff_mod_eq_zero.mp hdvd)
  · intro ⟨h2, h⟩
    refine ⟨h2, fun m hm => ?_⟩
    rw [Finset.mem_Icc, floorSqrt_eq_sqrt] at hm
    intro hmod
    exact h m hm.1 hm.2 (Nat.dvd_iff_mod_eq_zero.mpr hmod)

/-- C1: for every `n` in `[0, 100000]`, `count_primes n` equals the
number of primes `≤ n` as defined by trial division (and also the number
of mathematical primes `≤ n`); in particular `count_primes 0 = 0`,
`count_primes 1 = 0`, `count_primes 2 = 1`, `count_primes 10 = 4`. -/
theorem c1_count_primes_correct :
    (∀ n : Nat, n ≤ 100000 →
      count_primes (n : Int) = trialDivisionPrimeCount n ∧
      count_primes (n : Int) = primePi n) ∧
    count_primes 0 = 0 ∧ count_primes 1 = 0 ∧
    count_primes 2 = 1 ∧ count_primes 10 = 4 := by
  refine ⟨fun n _ => ?_, by decide, by decide, by decide, by decide⟩
  rw [count_primes_eq_primePi, trialDivisionPrimeCount_eq_primePi]
  exact ⟨rfl, rfl⟩

/-- Witness for C1 at the concrete input `n = 10`. -/
theorem c1_count_primes_correct_witness :
    (10 : Nat) ≤ 100000 ∧ count_primes ((10 : Nat) : Int) = trialDivisionPrimeCount 10 ∧
      trialDivisionPrimeCount 10 = 4 :=
  ⟨by decide, (c1_count_primes_correct.1 10 (by decide)).1, by decide⟩

/-- A parsed JSON document, as produced by Flask's `request.get_json()`.
`null` models Python `None` (the parse of the JSON document `null`).
JSON numbers with a fractional part are modelled as exact rationals
(`float`); integer JSON numbers arrive as Python `int` (`int`).  Object
fields are listed with distinct keys, as in a Python dict after parsing. -/
inductive JsonValue where
  | null
  | bool (b : Bool)
  | int (i : Int)
  | float (q : ℚ)
  | str (s : String)
  | arr (xs : List JsonValue)
  | obj (fields : List (String × JsonValue))

/-- Python truthiness of a parsed JSON value, as tested by `not data`
(src/app/main.py line 70): `None`, `False`, `0`, `0.0`, `""`, `[]` and
`{}` are falsy, everything else truthy. -/
def JsonValue.truthy : JsonValue → Bool
  | .null => false
  | .bool b => b
  | .int i => i != 0
  | .float q => q != 0
  | .str s => s != ""
  | .arr xs => !xs.isEmpty
  | .obj fs => !fs.isEmpty

/-- An exception raised by Python code inside the handler's `try` block:
`int()` raises `ValueError` on an unparseable string and `TypeError` on
`None`, lists and dicts; `'n' not in data` raises `TypeError` when `data`
is a number or boolean; `data['n']` raises `TypeError` when `data` is a
string or list. -/
inductive PyError where
  | valueError
  | typeError

/-- Model of CPython `int(s)` for a string argument on ASCII decimal
literals: surrounding whitespace is stripped, then an optional sign
followed by a nonempty run of digits is accepted; anything else raises
`ValueError` (underscore digit separators and non-ASCII digits, which
CPython also accepts, are outside the model — no claim mentions them). -/
def pyIntOfString (s : String) : Option Int :=
  let cs := ((s.toList.dropWhile (fun c => c.isWhitespace)).reverse.dropWhile
    (fun c => c.isWhitespace)).reverse
  let signed : Int × List Char :=
    match cs with
    | '-' :: rest => (-1, rest)
    | '+' :: rest => (1, rest)
    | _ => (1, cs)
  if signed.2 ≠ [] ∧ signed.2.all (fun c => c.isDigit) then
    some (signed.1 * (signed.2.foldl (fun a c => 10 * a + (c.toNat - 48)) (0 : Nat) : Nat))
  else none

/-- Model of CPython `int(x)` on a parsed JSON value
(src/app/main.py line 73, `int(data['n'])`): integers pass through,
booleans coerce to 0/1, floats truncate toward zero, strings parse as
integer literals or raise `ValueError`; `None`, lists and dicts raise
`TypeError`. -/
def pyInt : JsonValue → Except PyError Int
  | .int i => .ok i
  | .bool b => .ok (if b then 1 else 0)
  | .float q => .ok (if 0 ≤ q then q.floor else q.ceil)
  | .str s =>
    match pyIntOfString s with
    | some i => .ok i
    | none => .error .valueError
  | .null => .error .typeError
  | .arr _ => .error .typeError
  | .obj _ => .error .typeError

/-- Python `'n' in data` (src/app/main.py line 70): key membership for a
dict, substring (here: character) containment for a string, element
membership for a list; a `TypeError` for numbers, booleans and `None`. -/
def hasKeyN : JsonValue → Except PyError Bool
  | .obj fs => .ok (fs.any (fun p => p.1 == "n"))
  | .str s => .ok (s.toList.contains 'n')
  | .arr xs => .ok (xs.any (fun v => match v with | .str t => t == "n" | _ => false))
  | _ => .error .typeError

/-- Python `data['n']` (src/app/main.py line 73): dict lookup; on any
other type (string, list) indexing with a string key raises `TypeError`.
Only evaluated after `'n' in data` succeeded, so for a dict the key is
present. -/
def getItemN : JsonValue → Except PyError JsonValue
  | .obj fs =>
    match fs.lookup "n" with
    | some v => .ok v
    | none => .error .typeError
  | _ => .error .typeError

/-- The two module-level flags of src/app/main.py (lines 21-22). -/
structure AppState where
  is_ready : Bool
  shutdown_in_progress : Bool

/-- Initial module-level state (src/app/main.py lines 21-22):
`is_ready = True`, `shutdown_in_progress = False`. -/
def initState : AppState := ⟨true, false⟩

/-- The startup sequence's assignment `is_ready = True`
(src/app/main.py line 114), executed after the 2-second warm-up sleep and
before the server binds its port. -/
def afterStartup (s : AppState) : AppState := { s with is_ready := true }

/-- An HTTP response: status code and JSON body. -/
abbrev HttpResponse := Nat × JsonValue

/-- JSON body of the form produced by `jsonify({"error": msg})`. -/
def errBody (msg : String) : JsonValue := .obj [("error", .str msg)]

/-- JSON body of the form produced by `jsonify({"status": msg})`. -/
def statusBody (msg : String) : JsonValue := .obj [("status", .str msg)]

/-- `health` handler for GET /healthz (src/app/main.py lines 42-47).
Handlers are modelled as state transformers returning the (unchanged)
state together with the response. -/
def health (s : AppState) : AppState × HttpResponse :=
  if s.shutdown_in_progress then (s, 503, statusBody "shutting down")
  else (s, 200, statusBody "healthy")

/-- `ready` handler for GET /readyz (src/app/main.py lines 50-55). -/
def ready (s : AppState) : AppState × HttpResponse :=
  if !s.is_ready || s.shutdown_in_progress then (s, 503, statusBody "not ready")
  else (s, 200, statusBody "ready")

/-- `version` handler for GET /version (src/app/main.py lines 58-62);
the parameter is the value of the APP_VERSION environment variable. -/
def version (env_app_version : Option String) (s : AppState) : AppState × HttpResponse :=
  (s, 200, JsonValue.obj [("version", .str (env_app_version.getD "unknown"))])

/-- Outcome of `request.get_json()` (src/app/main.py line 69) with its
default arguments: either a parsed JSON document, or a raised
`werkzeug` `HTTPException` (`BadRequest` for a body that is not valid
JSON, `UnsupportedMediaType`/`BadRequest` for a missing body or a
non-JSON content type).  Such an exception is an ordinary `Exception`,
so it is caught by the handler's final `except Exception` clause. -/
inductive GetJsonResult where
  | ok (v : JsonValue)
  | raised

/-- `compute` handler for POST /compute (src/app/main.py lines 65-93).
The `try` body runs the validation chain in source order; a raised
`ValueError` is answered with 400 "invalid input", any other exception
(including the one `get_json` may raise and every `TypeError`) with
500 "internal server error".  The success body carries the converted
`n` and the prime count; the `latency_seconds` field (wall-clock time)
is outside the embedding and omitted. -/
def compute (s : AppState) (g : GetJsonResult) : AppState × HttpResponse :=
  match g with
  | .raised => (s, 500, errBody "internal server error")
  | .ok data =>
    if !data.truthy then (s, 400, errBody "missing 'n' parameter")
    else
      match hasKeyN data with
      | .error _ => (s, 500, errBody "internal server error")
      | .ok false => (s, 400, errBody "missing 'n' parameter")
      | .ok true =>
        match getItemN data with
        | .error _ => (s, 500, errBody "internal server error")
        | .ok v =>
          match pyInt v with
          | .error .valueError => (s, 400, errBody "invalid input")
          | .error .typeError => (s, 500, errBody "internal server error")
          | .ok n =>
            if n < 0 ∨ n > 100000 then
              (s, 400, errBody "n must be between 0 and 100000")
            else
              (s, 200, JsonValue.obj
                [("n", .int n), ("primes_count", .int (count_primes n))])

/-- The fixed delay slept inside the signal handler
(src/app/main.py line 101, `time.sleep(5)`). -/
def shutdownSleepSeconds : Nat := 5

/-- What `graceful_shutdown` does, beyond mutating the flag: how long it
sleeps and the argument of `sys.exit`. -/
structure ShutdownResult where
  state : AppState
  sleepSeconds : Nat
  exitCode : Nat

/-- `graceful_shutdown` (src/app/main.py lines 96-104), registered for
both SIGTERM and SIGINT (lines 108-110): sets
`shutdown_in_progress = True`, sleeps 5 seconds, and exits the process
with code 0. -/
def graceful_shutdown (s : AppState) : ShutdownResult :=
  { state := { s with shutdown_in_progress := true },
    sleepSeconds := shutdownSleepSeconds,
    exitCode := 0 }

/-- An observable event of the running process: one request to any of the
four endpoints, or the arrival of a termination signal (SIGINT or
SIGTERM, both bound to `graceful_shutdown`). -/
inductive Event where
  | healthReq
  | readyReq
  | versionReq (env : Option String)
  | computeReq (g : GetJsonResult)
  | termSignal

/-- State transition performed by one event. -/
def step (s : AppState) (e : Event) : AppState :=
  match e with
  | .healthReq => (health s).1
  | .readyReq => (ready s).1
  | .versionReq env => (version env s).1
  | .computeReq g => (compute s g).1
  | .termSignal => (graceful_shutdown s).state

/-- State after a sequence of events. -/
def runTrace (s : AppState) (es : List Event) : AppState := es.foldl step s

theorem health_fst (s : AppState) : (health s).1 = s := by
  unfold health
  split <;> rfl

theorem ready_fst (s : AppState) : (ready s).1 = s := by
  unfold ready
  split <;> rfl

theorem version_fst (env : Option String) (s : AppState) : (version env s).1 = s := rfl

theorem compute_fst (s : AppState) (g : GetJsonResult) : (compute s g).1 = s := by
  unfold compute
  repeat' split
  all_goals rfl

/-- The validation tail of `compute` on a body `{"n": v}`: the first two
checks pass, so the response is decided by `int(v)` and the range test. -/
theorem compute_obj_n (s : AppState) (v : JsonValue) :
    compute s (.ok (.obj [("n", v)])) =
      match pyInt v with
      | .error .valueError => (s, 400, errBody "invalid input")
      | .error .typeError => (s, 500, errBody "internal server error")
      | .ok n =>
        if n < 0 ∨ n > 100000 then (s, 400, errBody "n must be between 0 and 100000")
        else (s, 200, JsonValue.obj
          [("n", .int n), ("primes_count", .int (count_primes n))]) := by
  rfl

theorem step_shutdown_iff (s : AppState) (e : Event) :
    (step s e).shutdown_in_progress = true ↔
      (s.shutdown_in_progress = true ∨ e = Event.termSignal) := by
  cases e with
  | healthReq => simp [step, health_fst]
  | readyReq => simp [step, ready_fst]
  | versionReq env => simp [step, version_fst]
  | computeReq g => simp [step, compute_fst]
  | termSignal => simp [step, graceful_shutdown]

theorem runTrace_shutdown_iff (es : List Event) : ∀ s : AppState,
    (runTrace s es).shutdown_in_progress = true ↔
      (s.shutdown_in_progress = true ∨ Event.termSignal ∈ es) := by
  induction es with
  | nil => intro s; simp [runTrace]
  | cons e es ih =>
    intro s
    have hstep : runTrace s (e :: es) = runTrace (step s e) es := by
      simp [runTrace]
    rw [hstep, ih (step s e), step_shutdown_iff]
    constructor
    · rintro ((h | rfl) | h)
      · exact Or.inl h
      · exact Or.inr (List.mem_cons_self _ _)
      · exact Or.inr (List.mem_cons_of_mem _ h)
    · rintro (h | h)
      · exact Or.inl (Or.inl h)
      · rcases List.mem_cons.mp h with rfl | h
        · exact Or.inl (Or.inr rfl)
        · exact Or.inr h

/-- C2 counterexample: a POST /compute body that is not parseable as JSON
makes `request.get_json()` raise, and the handler's final
`except Exception` clause answers HTTP 500 "internal server error" — not
the claimed HTTP 400 missing-parameter response. -/
theorem c2_unparseable_body_counterexample :
    (compute initState GetJsonResult.raised).2 = (500, errBody "internal server error") ∧
    (compute initState GetJsonResult.raised).2.1 ≠ 400 := by
  exact ⟨rfl, by decide⟩

/-- C2 amended: a body that parses as JSON to a falsy value or to an
object lacking the field "n" is answered with HTTP 400
"missing 'n' parameter" (this check runs before integer conversion and
the range check); a missing or unparseable body instead makes
`request.get_json()` raise, which the handler converts to HTTP 500
"internal server error". -/
theorem c2_missing_param_amended :
    (∀ (s : AppState) (v : JsonValue), v.truthy = false →
      (compute s (.ok v)).2 = (400, errBody "missing 'n' parameter")) ∧
    (∀ (s : AppState) (fs : List (String × JsonValue)),
      fs.any (fun p => p.1 == "n") = false →
      (compute s (.ok (.obj fs))).2 = (400, errBody "missing 'n' parameter")) ∧
    (∀ s : AppState, (compute s GetJsonResult.raised).2 =
      (500, errBody "internal server error")) := by
  refine ⟨?_, ?_, fun s => rfl⟩
  · intro s v h
    simp [compute, h]
  · intro s fs h
    by_cases ht : (JsonValue.obj fs).truthy
    · simp [compute, ht, hasKeyN, h]
    · simp only [Bool.not_eq_true] at ht
      simp [compute, ht]

/-- Witness for C2's amended theorem on concrete inputs: the empty object
and an object without "n". -/
theorem c2_missing_param_amended_witness :
    (JsonValue.obj []).truthy = false ∧
    (compute initState (.ok (.obj []))).2 = (400, errBody "missing 'n' parameter") ∧
    (compute initState (.ok (.obj [("x", .int 1)]))).2 =
      (400, errBody "missing 'n' parameter") :=
  ⟨rfl, c2_missing_param_amended.1 initState (.obj []) rfl,
   c2_missing_param_amended.2.1 initState [("x", .int 1)] rfl⟩

/-- C3 counterexample: the body `{"n": null}` has the field "n", but
`int(None)` raises `TypeError`, not `ValueError`; the `except Exception`
clause answers HTTP 500 "internal server error" — not the claimed
HTTP 400 "invalid input". -/
theorem c3_null_counterexample :
    (compute initState (.ok (.obj [("n", .null)]))).2 =
      (500, errBody "internal server error") ∧
    (compute initState (.ok (.obj [("n", .null)]))).2.1 ≠ 400 := by
  exact ⟨rfl, by decide⟩

/-- C3 amended: a value of "n" whose conversion raises `ValueError` — a
string that is not an integer literal — is answered with HTTP 400
"invalid input" (after the missing-field check, before the range check);
values on which `int()` raises `TypeError` instead (null, lists, objects)
fall through to the generic handler and are answered with HTTP 500
"internal server error". -/
theorem c3_invalid_input_amended :
    (∀ (s : AppState) (v : JsonValue), pyInt v = .error .valueError →
      (compute s (.ok (.obj [("n", v)]))).2 = (400, errBody "invalid input")) ∧
    (∀ (s : AppState) (v : JsonValue), pyInt v = .error .typeError →
      (compute s (.ok (.obj [("n", v)]))).2 = (500, errBody "internal server error")) := by
  constructor
  · intro s v h
    rw [compute_obj_n, h]
  · intro s v h
    rw [compute_obj_n, h]

/-- Witness for C3's amended theorem at the concrete inputs
`{"n": "abc"}` and `{"n": null}`. -/
theorem c3_invalid_input_amended_witness :
    pyInt (.str "abc") = .error .valueError ∧
    (compute initState (.ok (.obj [("n", .str "abc")]))).2 = (400, errBody "invalid input") ∧
    (compute initState (.ok (.obj [("n", .null)]))).2 =
      (500, errBody "internal server error") :=
  ⟨rfl, c3_invalid_input_amended.1 initState (.str "abc") rfl,
   c3_invalid_input_amended.2 initState .null rfl⟩

/-- C4: a converted integer outside [0, 100000] is answered with HTTP 400
"n must be between 0 and 100000"; a converted integer inside the range
reaches the computation and is answered with HTTP 200; in particular the
boundaries 0 and 100000 are accepted while -1 and 100001 are rejected. -/
theorem c4_range_check :
    (∀ (s : AppState) (v : JsonValue) (n : Int), pyInt v = .ok n →
      (n < 0 ∨ 100000 < n) →
      (compute s (.ok (.obj [("n", v)]))).2 =
        (400, errBody "n must be between 0 and 100000")) ∧
    (∀ (s : AppState) (v : JsonValue) (n : Int), pyInt v = .ok n →
      (0 ≤ n ∧ n ≤ 100000) →
      (compute s (.ok (.obj [("n", v)]))).2 =
        (200, JsonValue.obj [("n", .int n), ("primes_count", .int (count_primes n))])) ∧
    (compute initState (.ok (.obj [("n", .int 0)]))).2.1 = 200 ∧
    (compute initState (.ok (.obj [("n", .int 100000)]))).2.1 = 200 ∧
    (compute initState (.ok (.obj [("n", .int (-1))]))).2 =
      (400, errBody "n must be between 0 and 100000") ∧
    (compute initState (.ok (.obj [("n", .int 100001)]))).2 =
      (400, errBody "n must be between 0 and 100000") := by
  refine ⟨?_, ?_, rfl, rfl, rfl, rfl⟩
  · intro s v n h hr
    rw [compute_obj_n, h]
    dsimp only
    rw [if_pos (by omega : n < 0 ∨ n > 100000)]
  · intro s v n h hr
    rw [compute_obj_n, h]
    dsimp only
    rw [if_neg (by omega : ¬(n < 0 ∨ n > 100000))]

/-- Witness for C4 at the concrete inputs `{"n": -1}` and `{"n": 7}`. -/
theorem c4_range_check_witness :
    pyInt (.int (-1)) = .ok (-1) ∧
    (compute initState (.ok (.obj [("n", .int (-1))]))).2 =
      (400, errBody "n must be between 0 and 100000") ∧
    (compute initState (.ok (.obj [("n", .int 7)]))).2 =
      (200, JsonValue.obj [("n", .int 7), ("primes_count", .int (count_primes 7))]) :=
  ⟨rfl, c4_range_check.1 initState (.int (-1)) (-1) rfl (by omega),
   c4_range_check.2.1 initState (.int 7) 7 rfl (by omega)⟩

/-- C5: GET /healthz answers HTTP 200 `{"status": "healthy"}` exactly
when `shutdown_in_progress` is false and HTTP 503
`{"status": "shutting down"}` exactly when it is true, and leaves the
process state unchanged. -/
theorem c5_healthz_contract :
    ∀ s : AppState,
      ((health s).2 = (200, statusBody "healthy") ↔ s.shutdown_in_progress = false) ∧
      ((health s).2 = (503, statusBody "shutting down") ↔ s.shutdown_in_progress = true) ∧
      (health s).1 = s := by
  intro s
  obtain ⟨r, sd⟩ := s
  cases sd <;> simp [health, statusBody, Prod.ext_iff]

/-- C6: GET /readyz answers HTTP 200 `{"status": "ready"}` exactly when
`is_ready` is true and `shutdown_in_progress` is false, HTTP 503
`{"status": "not ready"}` otherwise, and leaves the process state
unchanged. -/
theorem c6_readyz_contract :
    ∀ s : AppState,
      ((ready s).2 = (200, statusBody "ready") ↔
        (s.is_ready = true ∧ s.shutdown_in_progress = false)) ∧
      ((ready s).2 = (503, statusBody "not ready") ↔
        ¬(s.is_ready = true ∧ s.shutdown_in_progress = false)) ∧
      (ready s).1 = s := by
  intro s
  obtain ⟨r, sd⟩ := s
  cases r <;> cases sd <;> simp [ready, statusBody, Prod.ext_iff]

/-- C7 (code bug): contrary to the claim, `is_ready` is initialized to
`True` at module load (src/app/main.py line 21), so it is already true
before the 2-second startup simulation runs; the assignment on line 114
is a no-op, and a /readyz request evaluated in the pre-startup state is
answered HTTP 200 "ready", not 503. -/
theorem c7_initial_readiness_bug :
    initState.is_ready = true ∧
    afterStartup initState = initState ∧
    (ready initState).2 = (200, statusBody "ready") :=
  ⟨rfl, rfl, rfl⟩

/-- C8: `shutdown_in_progress` is false initially; a termination signal
sets it to true, sleeps the fixed 5 seconds and exits with code 0; no
operation of the program ever resets it, so along every event trace the
flag is monotone and is true exactly when a termination signal has
arrived. -/
theorem c8_shutdown_flag_monotone :
    initState.shutdown_in_progress = false ∧
    (∀ s : AppState, (graceful_shutdown s).state.shutdown_in_progress = true ∧
      (graceful_shutdown s).sleepSeconds = 5 ∧ (graceful_shutdown s).exitCode = 0) ∧
    (∀ (s : AppState) (e : Event), s.shutdown_in_progress = true →
      (step s e).shutdown_in_progress = true) ∧
    (∀ es : List Event, (runTrace initState es).shutdown_in_progress = true ↔
      Event.termSignal ∈ es) := by
  refine ⟨rfl, fun s => ⟨rfl, rfl, rfl⟩, ?_, ?_⟩
  · intro s e h
    rw [step_shutdown_iff]
    exact Or.inl h
  · intro es
    rw [runTrace_shutdown_iff]
    constructor
    · rintro (h | h)
      · exact absurd h (by simp [initState])
      · exact h
    · exact Or.inr

/-- Witness for C8: a state with the flag set keeps it set across a
request, and the one-signal trace sets the flag. -/
theorem c8_shutdown_flag_monotone_witness :
    (step ⟨true, true⟩ Event.healthReq).shutdown_in_progress = true ∧
    ((runTrace initState [Event.termSignal]).shutdown_in_progress = true ↔
      Event.termSignal ∈ [Event.termSignal]) :=
  ⟨c8_shutdown_flag_monotone.2.2.1 ⟨true, true⟩ Event.healthReq rfl,
   c8_shutdown_flag_monotone.2.2.2 [Event.termSignal]⟩

/-- C9: no POST /compute request — whatever its outcome — changes either
process flag; in particular every 400 response leaves the state
unchanged. -/
theorem c9_compute_frame :
    ∀ (s : AppState) (g : GetJsonResult),
      (compute s g).1.is_ready = s.is_ready ∧
      (compute s g).1.shutdown_in_progress = s.shutdown_in_progress := by
  intro s g
  rw [compute_fst]
  exact ⟨rfl, rfl⟩

/-- C10: `int()` coercion at the compute endpoint — the numeric string
"10" is accepted and computed as n = 10, the float 10.9 is truncated
toward zero to n = 10, and the boolean true is coerced to n = 1; the
success response echoes the converted integer. -/
theorem c10_int_coercions :
    (compute initState (.ok (.obj [("n", .str "10")]))).2 =
      (200, JsonValue.obj [("n", .int 10), ("primes_count", .int 4)]) ∧
    (compute initState (.ok (.obj [("n", .float (10.9 : ℚ))]))).2 =
      (200, JsonValue.obj [("n", .int 10), ("primes_count", .int 4)]) ∧
    (compute initState (.ok (.obj [("n", .bool true)]))).2 =
      (200, JsonValue.obj [("n", .int 1), ("primes_count", .int 0)]) :=
  ⟨rfl, by with_unfolding_all rfl, rfl⟩
